import Mathlib

/-!
Verification of the MsgESS message-framing library (msgess-python).

The development shallowly embeds `src/msgess/msgess.py`. Bytes are
modelled as `List Nat` (each element a value 0..255 produced by the
embedded operations), Python `int.to_bytes` / `int.from_bytes` as
explicit big-endian conversions, the socket as an explicit byte-stream
state threaded through the receive operations, and the one exception
type `MsgESS.MsgESSException` as an error enumeration distinguishing
the distinct raise sites of the source.

External Python libraries used by the source (`zlib`, `json`, UTF-8
codecs) are not part of the repository; `zlib` is abstracted as an
explicit compress/decompress pair passed to the operations, while
`json.dumps`/`json.loads` and the UTF-8 codec are embedded for the
value subset exercised here (JSON values built from null, booleans,
integers, strings, arrays and objects; no floating-point literals).
-/

namespace MsgESS

/-- Error enumeration standing for the distinct raise sites of the source:
each constructor corresponds to one `raise MsgESS.MsgESSException(...)`
message (or, for `overflow`, the `OverflowError` that `int.to_bytes`
raises when a field value does not fit, which the source does not catch,
and for `runtimeMismatch`, the final `RuntimeError` defensive check of
`_receive_n_bytes_from_socket`). -/
inductive Err where
  | protoInvalidHeader
  | protoIncompatibleVersion
  | protoInvalidDataType
  | protoInvalidFooter
  | decompressFailed
  | notBytesType
  | notStrType
  | notListType
  | notDictType
  | jsonDecodeFailed
  | notJsonArray
  | notJsonObject
  | utf8EncodeFailed
  | utf8DecodeFailed
  | sendFailed
  | recvFailed
  | overflow
  | runtimeMismatch
  deriving DecidableEq, Repr

/-- ASCII bytes of the literal `MsgESSbegin` (the 11-byte begin marker). -/
def msgBegin : List Nat := [77, 115, 103, 69, 83, 83, 98, 101, 103, 105, 110]

/-- ASCII bytes of the literal `MsgESSend` (the 9-byte end marker). -/
def msgEnd : List Nat := [77, 115, 103, 69, 83, 83, 101, 110, 100]

/-- Source constant `MsgESS.PROTOCOL_VERSION = 2`. -/
def PROTOCOL_VERSION : Nat := 2

/-- Big-endian byte expansion of `v` into exactly `k` bytes, the value of
Python `v.to_bytes(k, byteorder="big", signed=False)` when it succeeds. -/
def toBytesBEAux : Nat → Nat → List Nat
  | 0, _ => []
  | k + 1, v => toBytesBEAux k (v / 256) ++ [v % 256]

/-- Python `v.to_bytes(len, byteorder="big", signed=False)`: returns the
big-endian bytes, or raises `OverflowError` when `v` does not fit. -/
def intToBytes (len : Nat) (v : Nat) : Except Err (List Nat) :=
  if v < 256 ^ len then .ok (toBytesBEAux len v) else .error .overflow

/-- Python `int.from_bytes(bs, byteorder="big", signed=False)`. -/
def intFromBytes (bs : List Nat) : Nat :=
  bs.foldl (fun acc b => acc * 256 + b) 0

/-- The two compression-related instance attributes set by `MsgESS.__init__`
and mutated by `set_message_compression`. -/
structure CompressionSettings where
  compress_messages : Bool
  compression_level : Int
  deriving DecidableEq, Repr

/-- State established by `MsgESS.__init__`: `_compress_messages = True`,
`_compression_level = -1`. -/
def initial_compression : CompressionSettings :=
  { compress_messages := true, compression_level := -1 }

/-- Source `MsgESS.set_message_compression`: always stores the new
`compress_messages` flag; stores `compression_level` only when it is not
`None`. -/
def set_message_compression (st : CompressionSettings) (compress_messages : Bool)
    (compression_level : Option Int) : CompressionSettings :=
  { compress_messages := compress_messages,
    compression_level :=
      match compression_level with
      | some l => l
      | none => st.compression_level }

/-- Frame assembly of `MsgESS.send_binary_data` (source lines 106-119),
applied to the final (possibly already compressed) body: magic string,
protocol version (4 bytes), body length (4 bytes), message class
(4 bytes), compressed flag (1 byte), data type (1 byte), body, footer
magic; each integer field encoded by `int.to_bytes`, whose
`OverflowError` propagates. -/
def assemble_frame (body : List Nat) (message_class : Nat) (compressed : Bool)
    (data_type : Nat) : Except Err (List Nat) :=
  match intToBytes 4 PROTOCOL_VERSION, intToBytes 4 body.length,
      intToBytes 4 message_class,
      intToBytes 1 (if compressed then 1 else 0), intToBytes 1 data_type with
  | .ok vB, .ok lB, .ok cB, .ok fB, .ok tB =>
      .ok (msgBegin ++ vB ++ lB ++ cB ++ fB ++ tB ++ body ++ msgEnd)
  | _, _, _, _, _ => .error .overflow

/-- Source `MsgESS.send_binary_data`: compresses the body when the
instance's compression is on (the `isinstance(binary_data, bytes)` check
is made unrepresentable by the `List Nat` type of the argument), then
assembles and returns the wire bytes handed to `socket.sendall`.
`compress` abstracts `zlib.compress`, taking the data and the configured
compression level. -/
def send_binary_data (compress : List Nat → Int → List Nat)
    (st : CompressionSettings) (binary_data : List Nat) (message_class : Nat)
    (data_type : Nat) : Except Err (List Nat) :=
  let data :=
    if st.compress_messages then compress binary_data st.compression_level
    else binary_data
  assemble_frame data message_class st.compress_messages data_type

/-- Stream-level view of `MsgESS._receive_n_bytes_from_socket`: over a
captured finite byte stream it yields the first `n` bytes and the rest of
the stream; when fewer than `n` bytes will ever arrive the call cannot
complete (`recvFailed` stands for that non-completion; the byte-exact
chunked loop, including its divergence on a closed peer, is embedded
separately as `receive_n_bytes_from_socket` below). -/
def receiveN (n : Nat) (s : List Nat) : Except Err (List Nat) × List Nat :=
  if n ≤ s.length then (.ok (s.take n), s.drop n) else (.error .recvFailed, s)

/-- Source `MsgESS.receive_binary_data` as a function of the incoming byte
stream, returning the result together with the unconsumed rest of the
stream. Mirrors the source order exactly: read 25 header bytes; check
magic `header[0:11]`; check version `header[11:15]`; decode length
`header[15:19]`, class `header[19:23]`, compressed flag `header[23:24]`
via `bool.from_bytes` (any nonzero byte is `True`); check data type
`header[24:25]`; read the body; decompress if flagged; read and check the
9 footer bytes. `decompress` abstracts `zlib.decompress`. -/
def receive_binary_data (decompress : List Nat → Except Err (List Nat))
    (data_type : Nat) (s : List Nat) :
    Except Err (List Nat × Nat) × List Nat :=
  match receiveN 25 s with
  | (.error e, s1) => (.error e, s1)
  | (.ok header, s1) =>
    if header.take 11 ≠ msgBegin then (.error .protoInvalidHeader, s1)
    else if intFromBytes ((header.drop 11).take 4) ≠ PROTOCOL_VERSION then
      (.error .protoIncompatibleVersion, s1)
    else
      let message_length := intFromBytes ((header.drop 15).take 4)
      let message_class := intFromBytes ((header.drop 19).take 4)
      let is_message_compressed : Bool :=
        intFromBytes ((header.drop 23).take 1) != 0
      if intFromBytes ((header.drop 24).take 1) ≠ data_type then
        (.error .protoInvalidDataType, s1)
      else
        match receiveN message_length s1 with
        | (.error e, s2) => (.error e, s2)
        | (.ok body, s2) =>
          let decompressed : Except Err (List Nat) :=
            if is_message_compressed then
              match decompress body with
              | .ok m => .ok m
              | .error _ => .error .decompressFailed
            else .ok body
          match decompressed with
          | .error e => (.error e, s2)
          | .ok message =>
            match receiveN 9 s2 with
            | (.error e, s3) => (.error e, s3)
            | (.ok footer, s3) =>
              if footer ≠ msgEnd then (.error .protoInvalidFooter, s3)
              else (.ok (message, message_class), s3)

/-- UTF-8 encoding of a single Unicode code point (values below 0x110000,
the range of Python `str` characters). -/
def utf8EncodeChar (c : Nat) : List Nat :=
  if c < 128 then [c]
  else if c < 2048 then [192 + c / 64, 128 + c % 64]
  else if c < 65536 then [224 + c / 4096, 128 + c / 64 % 64, 128 + c % 64]
  else [240 + c / 262144, 128 + c / 4096 % 64, 128 + c / 64 % 64, 128 + c % 64]

/-- Python `string.encode("utf-8")`: strict encoding of a string (a list
of code points) raises `UnicodeEncodeError` exactly when the string
contains a surrogate code point (0xD800..0xDFFF); otherwise it yields the
concatenated UTF-8 bytes. -/
def utf8Encode (s : List Nat) : Except Err (List Nat) :=
  if s.any (fun c => decide (55296 ≤ c ∧ c ≤ 57343)) then .error .utf8EncodeFailed
  else .ok ((s.map utf8EncodeChar).flatten)

/-- Whether a byte is a UTF-8 continuation byte (0x80..0xBF). -/
def isCont (b : Nat) : Bool := decide (128 ≤ b ∧ b ≤ 191)

/-- Value contributed by a continuation byte. -/
def contVal (b : Nat) : Nat := b - 128

/-- Strict UTF-8 decoding loop (Python `bytes.decode("utf-8")`), rejecting
truncated sequences, stray continuation bytes, overlong forms, surrogates
and values above 0x10FFFF. `fuel` bounds the recursion; one byte is
consumed per step, so `bs.length + 1` is always enough. -/
def utf8DecodeGo : Nat → List Nat → List Nat → Except Err (List Nat)
  | _, [], acc => .ok acc.reverse
  | 0, _ :: _, _ => .error .utf8DecodeFailed
  | fuel + 1, b :: rest, acc =>
    if b < 128 then utf8DecodeGo fuel rest (b :: acc)
    else if 194 ≤ b ∧ b ≤ 223 then
      match rest with
      | b1 :: rest1 =>
        if isCont b1 then
          utf8DecodeGo fuel rest1 (((b - 192) * 64 + contVal b1) :: acc)
        else .error .utf8DecodeFailed
      | _ => .error .utf8DecodeFailed
    else if 224 ≤ b ∧ b ≤ 239 then
      match rest with
      | b1 :: b2 :: rest2 =>
        let lowOk : Bool :=
          if b = 224 then decide (160 ≤ b1 ∧ b1 ≤ 191)
          else if b = 237 then decide (128 ≤ b1 ∧ b1 ≤ 159)
          else isCont b1
        if lowOk ∧ isCont b2 then
          utf8DecodeGo fuel rest2
            (((b - 224) * 4096 + contVal b1 * 64 + contVal b2) :: acc)
        else .error .utf8DecodeFailed
      | _ => .error .utf8DecodeFailed
    else if 240 ≤ b ∧ b ≤ 244 then
      match rest with
      | b1 :: b2 :: b3 :: rest3 =>
        let lowOk : Bool :=
          if b = 240 then decide (144 ≤ b1 ∧ b1 ≤ 191)
          else if b = 244 then decide (128 ≤ b1 ∧ b1 ≤ 143)
          else isCont b1
        if lowOk ∧ isCont b2 ∧ isCont b3 then
          utf8DecodeGo fuel rest3
            (((b - 240) * 262144 + contVal b1 * 4096 + contVal b2 * 64
              + contVal b3) :: acc)
        else .error .utf8DecodeFailed
      | _ => .error .utf8DecodeFailed
    else .error .utf8DecodeFailed

/-- Python `bytes.decode("utf-8")` over the byte list `bs`. -/
def utf8Decode (bs : List Nat) : Except Err (List Nat) :=
  utf8DecodeGo (bs.length + 1) bs []

mutual

/-- Python values passed to and returned by the JSON operations of the
source: `None`, `bool`, `int`, `str` (a list of code points), `list` and
`dict` (with string keys), covering the JSON-serializable subset the
library exchanges (floating-point numbers are outside the modelled
subset). The list and dict spines are the mutual types `PyList` and
`PyDict`. -/
inductive PyObj where
  | pyNone : PyObj
  | pyBool : Bool → PyObj
  | pyInt : Int → PyObj
  | pyStr : List Nat → PyObj
  | pyList : PyList → PyObj
  | pyDict : PyDict → PyObj

/-- Spine of a Python `list` of `PyObj` values. -/
inductive PyList where
  | nil : PyList
  | cons : PyObj → PyList → PyList

/-- Spine of a Python `dict` with string keys and `PyObj` values. -/
inductive PyDict where
  | nil : PyDict
  | cons : List Nat → PyObj → PyDict → PyDict

end

/-- Python `isinstance(v, list)`. -/
def isinstance_list : PyObj → Bool
  | .pyList _ => true
  | _ => false

/-- Python `isinstance(v, dict)`. -/
def isinstance_dict : PyObj → Bool
  | .pyDict _ => true
  | _ => false

/-- Decimal digit characters of `n`, most significant first; helper for
the JSON serializer. `fuel ≥ n` suffices since the value shrinks by a
factor of 10 each step. -/
def natToDecAux : Nat → Nat → List Nat → List Nat
  | 0, _, acc => acc
  | fuel + 1, n, acc =>
    if n = 0 then acc else natToDecAux fuel (n / 10) ((48 + n % 10) :: acc)

/-- Decimal representation of a natural number (code points). -/
def natToDec (n : Nat) : List Nat :=
  if n = 0 then [48] else natToDecAux n n []

/-- Python `repr` of an `int` as used by `json.dumps` (code points). -/
def intToDec (n : Int) : List Nat :=
  if n < 0 then 45 :: natToDec n.natAbs else natToDec n.natAbs

/-- Four lowercase hexadecimal digit characters of `n % 0x10000`. -/
def hex4 (n : Nat) : List Nat :=
  let dig := fun (d : Nat) => if d < 10 then 48 + d else 87 + d
  [dig (n / 4096 % 16), dig (n / 256 % 16), dig (n / 16 % 16), dig (n % 16)]

/-- Escaping of one string character by `json.dumps` with its default
`ensure_ascii=True`: shorthand escapes for the common control characters,
`\u` escapes (with surrogate pairs) for other control and all non-ASCII
characters. -/
def jsonEscapeChar (c : Nat) : List Nat :=
  if c = 34 then [92, 34]
  else if c = 92 then [92, 92]
  else if c = 8 then [92, 98]
  else if c = 9 then [92, 116]
  else if c = 10 then [92, 110]
  else if c = 12 then [92, 102]
  else if c = 13 then [92, 114]
  else if c < 32 then 92 :: 117 :: hex4 c
  else if c < 127 then [c]
  else if c < 65536 then 92 :: 117 :: hex4 c
  else
    92 :: 117 :: hex4 (55296 + (c - 65536) / 1024)
      ++ (92 :: 117 :: hex4 (56320 + (c - 65536) % 1024))

/-- JSON string-body escaping of a whole string. -/
def jsonEscape (s : List Nat) : List Nat := (s.map jsonEscapeChar).flatten

mutual

/-- Python `json.dumps(v)` with its default arguments (separators `", "`
and `": "`, `ensure_ascii=True`), serializing to a string (code points).
All constructors of `PyObj` are serializable, so the `TypeError` branch
of the source cannot fire in the model. -/
def json_dumps : PyObj → List Nat
  | .pyNone => [110, 117, 108, 108]
  | .pyBool b => if b then [116, 114, 117, 101] else [102, 97, 108, 115, 101]
  | .pyInt n => intToDec n
  | .pyStr s => 34 :: jsonEscape s ++ [34]
  | .pyList l => 91 :: dumpsArrayItems l ++ [93]
  | .pyDict l => 123 :: dumpsObjectItems l ++ [125]

/-- Comma-space separated serialization of the items of a list. -/
def dumpsArrayItems : PyList → List Nat
  | .nil => []
  | .cons x .nil => json_dumps x
  | .cons x (.cons y t) => json_dumps x ++ [44, 32] ++ dumpsArrayItems (.cons y t)

/-- Comma-space separated serialization of the `"key": value` entries of a
dict. -/
def dumpsObjectItems : PyDict → List Nat
  | .nil => []
  | .cons k v .nil => 34 :: jsonEscape k ++ [34, 58, 32] ++ json_dumps v
  | .cons k v (.cons k2 v2 t) =>
      34 :: jsonEscape k ++ [34, 58, 32] ++ json_dumps v ++ [44, 32]
        ++ dumpsObjectItems (.cons k2 v2 t)

end

/-- JSON whitespace characters (space, tab, newline, carriage return). -/
def isJsonWs (c : Nat) : Bool := c == 32 || c == 9 || c == 10 || c == 13

/-- Skip leading JSON whitespace. -/
def skipWs : List Nat → List Nat
  | [] => []
  | c :: rest => if isJsonWs c then skipWs rest else c :: rest

/-- Value of one hexadecimal digit character, if it is one. -/
def hexDigitVal (c : Nat) : Option Nat :=
  if 48 ≤ c ∧ c ≤ 57 then some (c - 48)
  else if 97 ≤ c ∧ c ≤ 102 then some (c - 87)
  else if 65 ≤ c ∧ c ≤ 70 then some (c - 55)
  else none

/-- Parse exactly four hexadecimal digits. -/
def parseHex4 : List Nat → Option (Nat × List Nat)
  | c1 :: c2 :: c3 :: c4 :: rest =>
    match hexDigitVal c1, hexDigitVal c2, hexDigitVal c3, hexDigitVal c4 with
    | some d1, some d2, some d3, some d4 =>
        some (d1 * 4096 + d2 * 256 + d3 * 16 + d4, rest)
    | _, _, _, _ => none
  | _ => none

/-- Parse the body of a JSON string after the opening quote, returning the
decoded code points and the input after the closing quote. Escapes follow
`json.loads`: the shorthand escapes, and `\u` escapes where an adjacent
high/low surrogate pair combines into one code point. -/
def parseStringBody : Nat → List Nat → Option (List Nat × List Nat)
  | 0, _ => none
  | _ + 1, [] => none
  | fuel + 1, c :: rest =>
    if c = 34 then some ([], rest)
    else if c = 92 then
      match rest with
      | [] => none
      | e :: rest1 =>
        if e = 34 ∨ e = 92 ∨ e = 47 then
          (parseStringBody fuel rest1).map (fun p => (e :: p.1, p.2))
        else if e = 98 then
          (parseStringBody fuel rest1).map (fun p => (8 :: p.1, p.2))
        else if e = 116 then
          (parseStringBody fuel rest1).map (fun p => (9 :: p.1, p.2))
        else if e = 110 then
          (parseStringBody fuel rest1).map (fun p => (10 :: p.1, p.2))
        else if e = 102 then
          (parseStringBody fuel rest1).map (fun p => (12 :: p.1, p.2))
        else if e = 114 then
          (parseStringBody fuel rest1).map (fun p => (13 :: p.1, p.2))
        else if e = 117 then
          match parseHex4 rest1 with
          | none => none
          | some (u, rest2) =>
            if 55296 ≤ u ∧ u ≤ 56319 then
              match rest2 with
              | 92 :: 117 :: rest3 =>
                match parseHex4 rest3 with
                | some (u2, rest4) =>
                  if 56320 ≤ u2 ∧ u2 ≤ 57343 then
                    (parseStringBody fuel rest4).map (fun p =>
                      ((65536 + (u - 55296) * 1024 + (u2 - 56320)) :: p.1, p.2))
                  else (parseStringBody fuel rest2).map (fun p => (u :: p.1, p.2))
                | none => (parseStringBody fuel rest2).map (fun p => (u :: p.1, p.2))
              | _ => (parseStringBody fuel rest2).map (fun p => (u :: p.1, p.2))
            else (parseStringBody fuel rest2).map (fun p => (u :: p.1, p.2))
        else none
    else if c < 32 then none
    else (parseStringBody fuel rest).map (fun p => (c :: p.1, p.2))

/-- Greedily take decimal digit characters. -/
def takeDigits : List Nat → List Nat × List Nat
  | [] => ([], [])
  | c :: rest =>
    if 48 ≤ c ∧ c ≤ 57 then
      let p := takeDigits rest
      (c :: p.1, p.2)
    else ([], c :: rest)

/-- Numeric value of a list of decimal digit characters. -/
def digitsVal (ds : List Nat) : Nat := ds.foldl (fun a c => a * 10 + (c - 48)) 0

/-- Parse the digits of a JSON integer (no leading zero unless the number
is zero itself), rejecting a following `.`, `e` or `E` (floating-point
literals are outside the modelled subset). -/
def parseIntDigits (s : List Nat) : Option (Nat × List Nat) :=
  match takeDigits s with
  | ([], _) => none
  | (d :: ds, rest) =>
    if d = 48 ∧ ds ≠ [] then none
    else
      match rest with
      | c :: _ => if c = 46 ∨ c = 101 ∨ c = 69 then none
                  else some (digitsVal (d :: ds), rest)
      | [] => some (digitsVal (d :: ds), rest)

mutual

/-- Recursive-descent parser for one JSON value, following `json.loads`
on the modelled subset. Consumes leading whitespace; returns the value
and the unconsumed input. `fuel` bounds recursion depth; every recursive
call consumes at least one input character first, so `s.length + 1` is
always enough. -/
def parseValue : Nat → List Nat → Option (PyObj × List Nat)
  | 0, _ => none
  | fuel + 1, s =>
    match skipWs s with
    | [] => none
    | c :: rest =>
      if c = 34 then
        (parseStringBody (rest.length + 1) rest).map (fun p => (.pyStr p.1, p.2))
      else if c = 91 then
        match skipWs rest with
        | 93 :: rest1 => some (.pyList .nil, rest1)
        | s1 => (parseArrayItems fuel s1).map (fun p => (.pyList p.1, p.2))
      else if c = 123 then
        match skipWs rest with
        | 125 :: rest1 => some (.pyDict .nil, rest1)
        | s1 => (parseObjectItems fuel s1).map (fun p => (.pyDict p.1, p.2))
      else if c = 110 then
        match rest with
        | 117 :: 108 :: 108 :: rest1 => some (.pyNone, rest1)
        | _ => none
      else if c = 116 then
        match rest with
        | 114 :: 117 :: 101 :: rest1 => some (.pyBool true, rest1)
        | _ => none
      else if c = 102 then
        match rest with
        | 97 :: 108 :: 115 :: 101 :: rest1 => some (.pyBool false, rest1)
        | _ => none
      else if c = 45 then
        (parseIntDigits rest).map (fun p => (.pyInt (-(p.1 : Int)), p.2))
      else if 48 ≤ c ∧ c ≤ 57 then
        (parseIntDigits (c :: rest)).map (fun p => (.pyInt (p.1 : Int), p.2))
      else none

/-- Parse `value (sep value)* close` items of a JSON array after a first
non-`]` character has been seen. -/
def parseArrayItems : Nat → List Nat → Option (PyList × List Nat)
  | 0, _ => none
  | fuel + 1, s =>
    match parseValue fuel s with
    | none => none
    | some (v, s1) =>
      match skipWs s1 with
      | 44 :: s2 => (parseArrayItems fuel s2).map (fun p => (.cons v p.1, p.2))
      | 93 :: s2 => some (.cons v .nil, s2)
      | _ => none

/-- Parse `"key": value (, "key": value)* close` items of a JSON object
after a first non-closing-brace character has been seen. -/
def parseObjectItems : Nat → List Nat → Option (PyDict × List Nat)
  | 0, _ => none
  | fuel + 1, s =>
    match skipWs s with
    | 34 :: s1 =>
      match parseStringBody (s1.length + 1) s1 with
      | none => none
      | some (k, s2) =>
        match skipWs s2 with
        | 58 :: s3 =>
          match parseValue fuel s3 with
          | none => none
          | some (v, s4) =>
            match skipWs s4 with
            | 44 :: s5 =>
              (parseObjectItems fuel s5).map (fun p => (.cons k v p.1, p.2))
            | 125 :: s5 => some (.cons k v .nil, s5)
            | _ => none
        | _ => none
    | _ => none

end

/-- Python `json.loads` over a string (code points), on the modelled
subset: a single JSON value surrounded only by whitespace. -/
def json_loads (s : List Nat) : Except Err PyObj :=
  match parseValue (s.length + 1) s with
  | some (v, rest) => if skipWs rest = [] then .ok v else .error .jsonDecodeFailed
  | none => .error .jsonDecodeFailed

/-- Data-type constants of `MsgESS._MessageDataType`. -/
def DATA_TYPE_BINARY : Nat := 1

/-- Data-type tag for UTF-8 string messages. -/
def DATA_TYPE_STRING : Nat := 2

/-- Data-type tag for JSON array messages. -/
def DATA_TYPE_JSON_ARRAY : Nat := 3

/-- Data-type tag for JSON object messages. -/
def DATA_TYPE_JSON_OBJECT : Nat := 4

/-- Source `MsgESS.send_string`: UTF-8-encode (raising on an unencodable
character), then delegate to `send_binary_data` with the given tag. The
`isinstance(string, str)` check is made unrepresentable by the argument
type. -/
def send_string (compress : List Nat → Int → List Nat)
    (st : CompressionSettings) (string : List Nat) (message_class : Nat)
    (data_type : Nat) : Except Err (List Nat) :=
  match utf8Encode string with
  | .error e => .error e
  | .ok message => send_binary_data compress st message message_class data_type

/-- Source `MsgESS.receive_string`: delegate to `receive_binary_data`,
then UTF-8-decode the body. -/
def receive_string (decompress : List Nat → Except Err (List Nat))
    (data_type : Nat) (s : List Nat) : Except Err (List Nat × Nat) × List Nat :=
  match receive_binary_data decompress data_type s with
  | (.error e, s1) => (.error e, s1)
  | (.ok (message, message_class), s1) =>
    match utf8Decode message with
    | .ok str => (.ok (str, message_class), s1)
    | .error e => (.error e, s1)

/-- Source `MsgESS.send_json_array`: reject a non-`list` argument, then
serialize with `json.dumps` and delegate to `send_string` with the
`JSON_ARRAY` tag. -/
def send_json_array (compress : List Nat → Int → List Nat)
    (st : CompressionSettings) (json_array : PyObj) (message_class : Nat) :
    Except Err (List Nat) :=
  if isinstance_list json_array then
    send_string compress st (json_dumps json_array) message_class
      DATA_TYPE_JSON_ARRAY
  else .error .notListType

/-- Source `MsgESS.receive_json_array`: receive a string with the
`JSON_ARRAY` tag, `json.loads` it, and reject a deserialized value that
is not a `list`. -/
def receive_json_array (decompress : List Nat → Except Err (List Nat))
    (s : List Nat) : Except Err (PyObj × Nat) × List Nat :=
  match receive_string decompress DATA_TYPE_JSON_ARRAY s with
  | (.error e, s1) => (.error e, s1)
  | (.ok (message, message_class), s1) =>
    match json_loads message with
    | .error e => (.error e, s1)
    | .ok v =>
      if isinstance_list v then (.ok (v, message_class), s1)
      else (.error .notJsonArray, s1)

/-- Source `MsgESS.send_json_object`: reject a non-`dict` argument, then
serialize with `json.dumps` and delegate to `send_string` with the
`JSON_OBJECT` tag. -/
def send_json_object (compress : List Nat → Int → List Nat)
    (st : CompressionSettings) (json_object : PyObj) (message_class : Nat) :
    Except Err (List Nat) :=
  if isinstance_dict json_object then
    send_string compress st (json_dumps json_object) message_class
      DATA_TYPE_JSON_OBJECT
  else .error .notDictType

/-- Source `MsgESS.receive_json_object`: receive a string with the
`JSON_OBJECT` tag, `json.loads` it, and reject a deserialized value that
is not a `dict`. -/
def receive_json_object (decompress : List Nat → Except Err (List Nat))
    (s : List Nat) : Except Err (PyObj × Nat) × List Nat :=
  match receive_string decompress DATA_TYPE_JSON_OBJECT s with
  | (.error e, s1) => (.error e, s1)
  | (.ok (message, message_class), s1) =>
    match json_loads message with
    | .error e => (.error e, s1)
    | .ok v =>
      if isinstance_dict v then (.ok (v, message_class), s1)
      else (.error .notJsonObject, s1)

/-- One socket `recv` call per iteration of the loop of
`MsgESS._receive_n_bytes_from_socket`. The transport is a script
`recv : Nat → Except Err (List Nat)` giving, for each call index, either
the bytes the OS delivers (truncated here to the requested
`min 16384 bytes_left`, since `recv` never returns more than asked) or an
`OSError`. `fuel` counts loop iterations; `none` means the loop has not
finished within `fuel` iterations. The loop body appends the chunk to
`data` and subtracts the chunk length from `bytes_left` — with no test
for an empty chunk. -/
def recvLoop (recv : Nat → Except Err (List Nat)) :
    Nat → Nat → List Nat → Nat → Option (Except Err (List Nat))
  | 0, _, _, _ => none
  | fuel + 1, i, data, bytes_left =>
    if bytes_left > 0 then
      match recv i with
      | .error _ => some (.error .recvFailed)
      | .ok chunk0 =>
        let chunk := chunk0.take (min 16384 bytes_left)
        recvLoop recv fuel (i + 1) (data ++ chunk) (bytes_left - chunk.length)
    else some (.ok data)

/-- Source `MsgESS._receive_n_bytes_from_socket`: run the accumulation
loop, then apply the defensive `n != len(data)` check (`RuntimeError`).
`none` means the call never returns (the loop runs forever). -/
def receive_n_bytes_from_socket (recv : Nat → Except Err (List Nat))
    (fuel n : Nat) : Option (Except Err (List Nat)) :=
  match recvLoop recv fuel 0 [] n with
  | none => none
  | some (.error e) => some (.error e)
  | some (.ok data) =>
      some (if data.length = n then .ok data else .error .runtimeMismatch)

/-- Operations a caller can perform on one `MsgESS` instance that touch
the compression settings: sending a binary message, or calling
`set_message_compression`. -/
inductive Command where
  | sendBin : List Nat → Nat → Command
  | setComp : Bool → Option Int → Command

/-- Folds a list of caller operations over an instance's compression
settings, collecting the wire bytes produced by each send (in order).
Each send uses the settings as they are at the moment of the call, as in
the source, where `send_binary_data` reads `self._compress_messages` and
`self._compression_level` when invoked. -/
def run_session (compress : List Nat → Int → List Nat) :
    CompressionSettings → List Command →
    CompressionSettings × List (Except Err (List Nat))
  | st, [] => (st, [])
  | st, .sendBin data cls :: rest =>
    let out := send_binary_data compress st data cls DATA_TYPE_BINARY
    let next := run_session compress st rest
    (next.1, out :: next.2)
  | st, .setComp b lvl :: rest =>
    run_session compress (set_message_compression st b lvl) rest

theorem toBytesBEAux_length (k v : Nat) : (toBytesBEAux k v).length = k := by
  induction k generalizing v with
  | zero => rfl
  | succ k ih => simp [toBytesBEAux, ih]

theorem foldl_toBytesBEAux (k v acc : Nat) :
    (toBytesBEAux k v).foldl (fun a b => a * 256 + b) acc
      = acc * 256 ^ k + v % 256 ^ k := by
  induction k generalizing v acc with
  | zero => simp [toBytesBEAux, Nat.mod_one]
  | succ k ih =>
    rw [toBytesBEAux, List.foldl_append, ih]
    simp only [List.foldl_cons, List.foldl_nil]
    rw [pow_succ, mul_comm (256 ^ k) 256, Nat.mod_mul]
    ring

theorem intFromBytes_toBytesBEAux (k v : Nat) (h : v < 256 ^ k) :
    intFromBytes (toBytesBEAux k v) = v := by
  unfold intFromBytes
  rw [foldl_toBytesBEAux, Nat.mod_eq_of_lt h]
  ring

theorem intFromBytes_single (x : Nat) : intFromBytes [x] = x := by
  simp [intFromBytes]

theorem take_append_len {α : Type} (xs ys : List α) (n : Nat)
    (h : xs.length = n) : (xs ++ ys).take n = xs := by
  subst h
  induction xs with
  | nil => simp
  | cons a t ih => simp [ih]

theorem drop_append_len {α : Type} (xs ys : List α) (n : Nat)
    (h : xs.length = n) : (xs ++ ys).drop n = ys := by
  subst h
  induction xs with
  | nil => simp
  | cons a t ih => simp [ih]

theorem take_append_add {α : Type} (xs ys : List α) (n m : Nat)
    (h : xs.length = n) : (xs ++ ys).take (n + m) = xs ++ ys.take m := by
  subst h
  induction xs with
  | nil => simp
  | cons a t ih =>
    simp only [List.cons_append, List.length_cons, Nat.succ_add,
      List.take_succ_cons, ih]

theorem drop_append_add {α : Type} (xs ys : List α) (n m : Nat)
    (h : xs.length = n) : (xs ++ ys).drop (n + m) = ys.drop m := by
  subst h
  induction xs with
  | nil => simp
  | cons a t ih =>
    simp only [List.cons_append, List.length_cons, Nat.succ_add,
      List.drop_succ_cons, ih]

theorem receive_binary_data_eq (decompress : List Nat → Except Err (List Nat))
    (expected : Nat) (vB lB cB : List Nat) (fb dtb : Nat) (tail : List Nat)
    (hv : vB.length = 4) (hl : lB.length = 4) (hc : cB.length = 4) :
    receive_binary_data decompress expected
        (msgBegin ++ (vB ++ (lB ++ (cB ++ ([fb] ++ ([dtb] ++ tail))))))
      = if intFromBytes vB ≠ PROTOCOL_VERSION then
          (.error .protoIncompatibleVersion, tail)
        else if dtb ≠ expected then (.error .protoInvalidDataType, tail)
        else
          match receiveN (intFromBytes lB) tail with
          | (.error e, s2) => (.error e, s2)
          | (.ok body, s2) =>
            match (if (fb != 0) then
                     match decompress body with
                     | .ok m => Except.ok m
                     | .error _ => Except.error Err.decompressFailed
                   else .ok body) with
            | .error e => (.error e, s2)
            | .ok message =>
              match receiveN 9 s2 with
              | (.error e, s3) => (.error e, s3)
              | (.ok footer, s3) =>
                if footer ≠ msgEnd then (.error .protoInvalidFooter, s3)
                else (.ok (message, intFromBytes cB), s3) := by
  have hlenS : 25 ≤ (msgBegin ++ (vB ++ (lB ++ (cB ++ ([fb] ++ ([dtb] ++ tail)))))).length := by
    simp only [List.length_append, List.length_cons, List.length_nil, hv, hl, hc,
      msgBegin]
    omega
  have htake : (msgBegin ++ (vB ++ (lB ++ (cB ++ ([fb] ++ ([dtb] ++ tail)))))).take 25
      = msgBegin ++ (vB ++ (lB ++ (cB ++ ([fb] ++ [dtb])))) := by
    rw [show (25 : Nat) = 11 + 14 from rfl, take_append_add msgBegin _ 11 14 (by rfl),
      show (14 : Nat) = 4 + 10 from rfl, take_append_add vB _ 4 10 hv,
      show (10 : Nat) = 4 + 6 from rfl, take_append_add lB _ 4 6 hl,
      show (6 : Nat) = 4 + 2 from rfl, take_append_add cB _ 4 2 hc,
      show (2 : Nat) = 1 + 1 from rfl, take_append_add [fb] _ 1 1 (by rfl),
      take_append_len [dtb] tail 1 (by rfl)]
  have hdrop : (msgBegin ++ (vB ++ (lB ++ (cB ++ ([fb] ++ ([dtb] ++ tail)))))).drop 25
      = tail := by
    rw [show (25 : Nat) = 11 + 14 from rfl, drop_append_add msgBegin _ 11 14 (by rfl),
      show (14 : Nat) = 4 + 10 from rfl, drop_append_add vB _ 4 10 hv,
      show (10 : Nat) = 4 + 6 from rfl, drop_append_add lB _ 4 6 hl,
      show (6 : Nat) = 4 + 2 from rfl, drop_append_add cB _ 4 2 hc,
      show (2 : Nat) = 1 + 1 from rfl, drop_append_add [fb] _ 1 1 (by rfl),
      drop_append_len [dtb] tail 1 (by rfl)]
  have hS : receiveN 25 (msgBegin ++ (vB ++ (lB ++ (cB ++ ([fb] ++ ([dtb] ++ tail))))))
      = (.ok (msgBegin ++ (vB ++ (lB ++ (cB ++ ([fb] ++ [dtb]))))), tail) := by
    rw [receiveN, if_pos hlenS, htake, hdrop]
  have h11 : (msgBegin ++ (vB ++ (lB ++ (cB ++ ([fb] ++ [dtb]))))).take 11 = msgBegin :=
    take_append_len _ _ 11 (by rfl)
  have hd11 : ((msgBegin ++ (vB ++ (lB ++ (cB ++ ([fb] ++ [dtb]))))).drop 11).take 4 = vB := by
    rw [drop_append_len msgBegin _ 11 (by rfl), take_append_len _ _ 4 hv]
  have hd15 : ((msgBegin ++ (vB ++ (lB ++ (cB ++ ([fb] ++ [dtb]))))).drop 15).take 4 = lB := by
    rw [show (15 : Nat) = 11 + 4 from rfl, drop_append_add msgBegin _ 11 4 (by rfl),
      drop_append_len vB _ 4 hv, take_append_len _ _ 4 hl]
  have hd19 : ((msgBegin ++ (vB ++ (lB ++ (cB ++ ([fb] ++ [dtb]))))).drop 19).take 4 = cB := by
    rw [show (19 : Nat) = 11 + 8 from rfl, drop_append_add msgBegin _ 11 8 (by rfl),
      show (8 : Nat) = 4 + 4 from rfl, drop_append_add vB _ 4 4 hv,
      drop_append_len lB _ 4 hl, take_append_len _ _ 4 hc]
  have hd23 : ((msgBegin ++ (vB ++ (lB ++ (cB ++ ([fb] ++ [dtb]))))).drop 23).take 1 = [fb] := by
    rw [show (23 : Nat) = 11 + 12 from rfl, drop_append_add msgBegin _ 11 12 (by rfl),
      show (12 : Nat) = 4 + 8 from rfl, drop_append_add vB _ 4 8 hv,
      show (8 : Nat) = 4 + 4 from rfl, drop_append_add lB _ 4 4 hl,
      drop_append_len cB _ 4 hc, take_append_len [fb] _ 1 (by rfl)]
  have hd24 : ((msgBegin ++ (vB ++ (lB ++ (cB ++ ([fb] ++ [dtb]))))).drop 24).take 1 = [dtb] := by
    rw [show (24 : Nat) = 11 + 13 from rfl, drop_append_add msgBegin _ 11 13 (by rfl),
      show (13 : Nat) = 4 + 9 from rfl, drop_append_add vB _ 4 9 hv,
      show (9 : Nat) = 4 + 5 from rfl, drop_append_add lB _ 4 5 hl,
      show (5 : Nat) = 4 + 1 from rfl, drop_append_add cB _ 4 1 hc,
      drop_append_len [fb] _ 1 (by rfl)]
    simp
  rw [receive_binary_data, hS]
  simp only [h11, hd11, hd15, hd19, hd23, hd24, intFromBytes_single, ne_eq,
    not_true, if_false]

theorem intToBytes_version : intToBytes 4 PROTOCOL_VERSION = .ok [0, 0, 0, 2] := rfl

theorem intToBytes_flag (fl : Bool) :
    intToBytes 1 (if fl then 1 else 0) = .ok [if fl then 1 else 0] := by
  cases fl <;> rfl

theorem intToBytes_byte (dt : Nat) (h : dt < 256) : intToBytes 1 dt = .ok [dt] := by
  rw [intToBytes, if_pos (by simpa using h)]
  simp [toBytesBEAux, Nat.mod_eq_of_lt h]

theorem assemble_frame_ok (body : List Nat) (cls : Nat) (fl : Bool) (dt : Nat)
    (h1 : body.length < 256 ^ 4) (h2 : cls < 256 ^ 4) (h3 : dt < 256) :
    assemble_frame body cls fl dt
      = .ok (msgBegin ++ [0, 0, 0, 2] ++ toBytesBEAux 4 body.length
          ++ toBytesBEAux 4 cls ++ [if fl then 1 else 0] ++ [dt] ++ body ++ msgEnd) := by
  have e2 : intToBytes 4 body.length = .ok (toBytesBEAux 4 body.length) := by
    rw [intToBytes, if_pos h1]
  have e3 : intToBytes 4 cls = .ok (toBytesBEAux 4 cls) := by
    rw [intToBytes, if_pos h2]
  rw [assemble_frame, intToBytes_version, e2, e3, intToBytes_flag,
    intToBytes_byte dt h3]

theorem assemble_frame_inv (body : List Nat) (cls : Nat) (fl : Bool) (dt : Nat)
    (wire : List Nat) (h : assemble_frame body cls fl dt = .ok wire) :
    body.length < 256 ^ 4 ∧ cls < 256 ^ 4 ∧ dt < 256
      ∧ wire = msgBegin ++ [0, 0, 0, 2] ++ toBytesBEAux 4 body.length
          ++ toBytesBEAux 4 cls ++ [if fl then 1 else 0] ++ [dt] ++ body ++ msgEnd := by
  have h1 : body.length < 256 ^ 4 := by
    by_contra hc
    have e : intToBytes 4 body.length = .error .overflow := by
      rw [intToBytes, if_neg hc]
    rw [assemble_frame, intToBytes_version, e] at h
    exact absurd h (by simp)
  have e2 : intToBytes 4 body.length = .ok (toBytesBEAux 4 body.length) := by
    rw [intToBytes, if_pos h1]
  have h2 : cls < 256 ^ 4 := by
    by_contra hc
    have e : intToBytes 4 cls = .error .overflow := by rw [intToBytes, if_neg hc]
    rw [assemble_frame, intToBytes_version, e2, e] at h
    exact absurd h (by simp)
  have e3 : intToBytes 4 cls = .ok (toBytesBEAux 4 cls) := by
    rw [intToBytes, if_pos h2]
  have h3 : dt < 256 := by
    by_contra hc
    have e : intToBytes 1 dt = .error .overflow := by
      rw [intToBytes, if_neg (by simpa using hc)]
    rw [assemble_frame, intToBytes_version, e2, e3, intToBytes_flag, e] at h
    exact absurd h (by simp)
  refine ⟨h1, h2, h3, ?_⟩
  rw [assemble_frame_ok body cls fl dt h1 h2 h3] at h
  exact (Except.ok.injEq _ _).mp h.symm

theorem frame_parse (decompress : List Nat → Except Err (List Nat))
    (body m : List Nat) (cls dt fb : Nat)
    (hlen : body.length < 256 ^ 4) (hcls : cls < 256 ^ 4)
    (hm : if fb = 0 then m = body else decompress body = .ok m) :
    receive_binary_data decompress dt
        (msgBegin ++ [0, 0, 0, 2] ++ toBytesBEAux 4 body.length
          ++ toBytesBEAux 4 cls ++ [fb] ++ [dt] ++ body ++ msgEnd)
      = (.ok (m, cls), []) := by
  have hassoc : msgBegin ++ [0, 0, 0, 2] ++ toBytesBEAux 4 body.length
        ++ toBytesBEAux 4 cls ++ [fb] ++ [dt] ++ body ++ msgEnd
      = msgBegin ++ ([0, 0, 0, 2] ++ (toBytesBEAux 4 body.length
          ++ (toBytesBEAux 4 cls ++ ([fb] ++ ([dt] ++ (body ++ msgEnd)))))) := by
    simp [List.append_assoc]
  rw [hassoc,
    receive_binary_data_eq decompress dt [0, 0, 0, 2] (toBytesBEAux 4 body.length)
      (toBytesBEAux 4 cls) fb dt (body ++ msgEnd) (by rfl)
      (toBytesBEAux_length 4 _) (toBytesBEAux_length 4 _)]
  have hver : intFromBytes [0, 0, 0, 2] = PROTOCOL_VERSION := by decide
  have hb : receiveN (intFromBytes (toBytesBEAux 4 body.length)) (body ++ msgEnd)
      = (.ok body, msgEnd) := by
    rw [intFromBytes_toBytesBEAux 4 _ hlen, receiveN,
      if_pos (by simp), take_append_len _ _ _ rfl, drop_append_len _ _ _ rfl]
  have h9 : receiveN 9 msgEnd = (.ok msgEnd, []) := rfl
  rw [hver, hb, intFromBytes_toBytesBEAux 4 _ hcls]
  by_cases hfb : fb = 0
  · rw [hfb] at hm ⊢
    simp only [if_pos rfl] at hm
    rw [hm]
    simp [h9]
  · simp only [if_neg hfb] at hm
    have : (fb != 0) = true := by simp [hfb]
    simp [this, hm, h9]

/-- Transport script of claim C1: the peer delivers 10 bytes on the first
`recv` call and then closes the connection, so every later `recv` returns
the empty byte string (Python `b""`), as `socket.recv` does on an orderly
peer close. -/
def prematureCloseRecv : Nat → Except Err (List Nat) :=
  fun i => if i = 0 then .ok (List.replicate 10 0) else .ok []

theorem recvLoop_stuck (fuel : Nat) :
    ∀ (i : Nat) (data : List Nat), 1 ≤ i →
      recvLoop prematureCloseRecv fuel i data 15 = none := by
  induction fuel with
  | zero => intro i data _; rfl
  | succ fuel ih =>
    intro i data hi
    have hrecv : prematureCloseRecv i = .ok [] := by
      unfold prematureCloseRecv
      rw [if_neg (by omega)]
    rw [recvLoop, if_pos (by norm_num), hrecv]
    simp only [List.take_nil, List.append_nil, List.length_nil, Nat.sub_zero]
    exact ih (i + 1) data (by omega)

/-- C1: the byte-accumulation helper `_receive_n_bytes_from_socket` does
NOT fail with a "connection closed prematurely" error when the transport
returns zero bytes before `n` are collected — it loops forever. With a
target of 25 bytes and a transport that delivers only 10 bytes and then
returns empty results, the loop body adds nothing to `data` and subtracts
nothing from `bytes_left`, so for every iteration bound `fuel` the call
has neither returned nor raised (`none`): the state after the first
iteration repeats forever, which is the code-level divergence the claim
(and §4.3 of the spec) says must instead be a TransportError. -/
theorem c1_premature_close_diverges (fuel : Nat) :
    receive_n_bytes_from_socket prematureCloseRecv fuel 25 = none := by
  rw [receive_n_bytes_from_socket]
  cases fuel with
  | zero => rfl
  | succ fuel =>
    have h0 : recvLoop prematureCloseRecv (fuel + 1) 0 [] 25
        = recvLoop prematureCloseRecv fuel 1 (List.replicate 10 0) 15 := rfl
    rw [h0, recvLoop_stuck fuel 1 _ (by omega)]

/-- C4: a frame whose 4-byte protocolVersion field differs from the
constant 2 makes `receive_binary_data` fail with the
incompatible-protocol-version error after consuming exactly the 25 header
bytes: whatever follows the header (`tail`, which may be empty, shorter
than the declared bodyLength, or arbitrary) is returned as the unconsumed
stream, so the failure needs no body bytes at all and the declared length
field `lB` is never trusted. -/
theorem c4_version_check_precedes_body (decompress : List Nat → Except Err (List Nat))
    (expected : Nat) (vB lB cB : List Nat) (fb dtb : Nat) (tail : List Nat)
    (hv : vB.length = 4) (hl : lB.length = 4) (hc : cB.length = 4)
    (hne : intFromBytes vB ≠ PROTOCOL_VERSION) :
    receive_binary_data decompress expected
        (msgBegin ++ vB ++ lB ++ cB ++ [fb] ++ [dtb] ++ tail)
      = (.error .protoIncompatibleVersion, tail) := by
  have hassoc : msgBegin ++ vB ++ lB ++ cB ++ [fb] ++ [dtb] ++ tail
      = msgBegin ++ (vB ++ (lB ++ (cB ++ ([fb] ++ ([dtb] ++ tail))))) := by
    simp [List.append_assoc]
  rw [hassoc, receive_binary_data_eq decompress expected vB lB cB fb dtb tail hv hl hc,
    if_pos hne]

/-- C4 witness: a concrete 25-byte header claiming protocol version 3 and
a declared body length of 100, followed by nothing at all, fails with the
incompatible-version error and leaves the (empty) rest of the stream
untouched. -/
theorem c4_version_check_precedes_body_witness :
    receive_binary_data (fun b => .ok b) DATA_TYPE_BINARY
        (msgBegin ++ [0, 0, 0, 3] ++ [0, 0, 0, 100] ++ [0, 0, 0, 0] ++ [0] ++ [1] ++ [])
      = (.error .protoIncompatibleVersion, []) :=
  c4_version_check_precedes_body (fun b => .ok b) DATA_TYPE_BINARY
    [0, 0, 0, 3] [0, 0, 0, 100] [0, 0, 0, 0] 0 1 [] rfl rfl rfl (by decide)

theorem receive_type_mismatch (decompress : List Nat → Except Err (List Nat))
    (expected : Nat) (vB lB cB : List Nat) (fb dtb : Nat) (tail : List Nat)
    (hv : vB.length = 4) (hl : lB.length = 4) (hc : cB.length = 4)
    (hver : intFromBytes vB = PROTOCOL_VERSION) (hne : dtb ≠ expected) :
    receive_binary_data decompress expected
        (msgBegin ++ vB ++ lB ++ cB ++ [fb] ++ [dtb] ++ tail)
      = (.error .protoInvalidDataType, tail) := by
  have hassoc : msgBegin ++ vB ++ lB ++ cB ++ [fb] ++ [dtb] ++ tail
      = msgBegin ++ (vB ++ (lB ++ (cB ++ ([fb] ++ ([dtb] ++ tail))))) := by
    simp [List.append_assoc]
  rw [hassoc, receive_binary_data_eq decompress expected vB lB cB fb dtb tail hv hl hc,
    if_neg (by simp [hver]), if_pos hne]

/-- C5 counterexample: the claim says the observed dataType is compared
against the expected tag only after a complete frame (header, body and
footer) has been read. On this concrete stream — a lone 25-byte header
with valid magic and version, declared bodyLength 100, and type byte 2
(String) where Binary (1) is expected — no body or footer bytes exist at
all, yet `receive_binary_data` already fails with the
invalid-data-type error, with the whole rest of the stream (nothing)
unread. Were the comparison performed only after a full frame decode, the
operation could not produce this error here (it would still be waiting
for the 100 declared body bytes), so the claimed ordering is false: the
receive routine itself rejects the unexpected type right after parsing
the header. -/
theorem c5_counterexample :
    receive_binary_data (fun b => .ok b) DATA_TYPE_BINARY
        (msgBegin ++ [0, 0, 0, 2] ++ [0, 0, 0, 100] ++ [0, 0, 0, 0] ++ [0] ++ [2])
      = (.error .protoInvalidDataType, []) := rfl

/-- C5 (amended): on every receive operation the observed dataType byte is
compared against the operation's expected tag immediately after the
25-byte header is parsed — before any body or footer bytes are consumed —
and a mismatch fails with the invalid-data-type error without attempting
to read or decode the body: whatever follows the header (`tail`,
arbitrary, possibly shorter than the declared bodyLength `lB`) is
returned unread. -/
theorem c5_type_check_after_header (decompress : List Nat → Except Err (List Nat))
    (expected : Nat) (vB lB cB : List Nat) (fb dtb : Nat) (tail : List Nat)
    (hv : vB.length = 4) (hl : lB.length = 4) (hc : cB.length = 4)
    (hver : intFromBytes vB = PROTOCOL_VERSION) (hne : dtb ≠ expected) :
    receive_binary_data decompress expected
        (msgBegin ++ vB ++ lB ++ cB ++ [fb] ++ [dtb] ++ tail)
      = (.error .protoInvalidDataType, tail) :=
  receive_type_mismatch decompress expected vB lB cB fb dtb tail hv hl hc hver hne

/-- C5 witness: a concrete header expecting String (2) but tagged
JsonArray (3), followed by one pending byte that is left unread. -/
theorem c5_type_check_after_header_witness :
    receive_binary_data (fun b => .ok b) DATA_TYPE_STRING
        (msgBegin ++ [0, 0, 0, 2] ++ [0, 0, 0, 1] ++ [0, 0, 0, 6] ++ [0] ++ [3] ++ [99])
      = (.error .protoInvalidDataType, [99]) :=
  c5_type_check_after_header (fun b => .ok b) DATA_TYPE_STRING
    [0, 0, 0, 2] [0, 0, 0, 1] [0, 0, 0, 6] 0 3 [99] rfl rfl rfl (by decide) (by decide)

/-- C7: JSON shape enforcement. First, `send_json_array` rejects a mapping
(dict) input with the not-a-list precondition error, producing no wire
bytes at all (the error is returned instead of any frame, so nothing can
reach the transport); symmetrically `send_json_object` rejects a sequence
(list) input with the not-a-dict error. Second, `receive_json_array`
applied to any frame whose header carries the JsonObject tag (4) fails
with the invalid-data-type ProtocolError — not with a JSON decoding or
shape error (`jsonDecodeFailed` / `notJsonArray`), which are distinct
error values. -/
theorem c7_json_shape_enforcement :
    (∀ (compress : List Nat → Int → List Nat) (st : CompressionSettings)
        (d : PyDict) (c : Nat),
      send_json_array compress st (.pyDict d) c = .error .notListType)
  ∧ (∀ (compress : List Nat → Int → List Nat) (st : CompressionSettings)
        (l : PyList) (c : Nat),
      send_json_object compress st (.pyList l) c = .error .notDictType)
  ∧ (∀ (decompress : List Nat → Except Err (List Nat)) (vB lB cB : List Nat)
        (fb : Nat) (tail : List Nat), vB.length = 4 → lB.length = 4 →
        cB.length = 4 → intFromBytes vB = PROTOCOL_VERSION →
      receive_json_array decompress
          (msgBegin ++ vB ++ lB ++ cB ++ [fb] ++ [DATA_TYPE_JSON_OBJECT] ++ tail)
        = (.error .protoInvalidDataType, tail)) := by
  refine ⟨fun _ _ _ _ => rfl, fun _ _ _ _ => rfl, ?_⟩
  intro decompress vB lB cB fb tail hv hl hc hver
  rw [receive_json_array, receive_string,
    receive_type_mismatch decompress DATA_TYPE_JSON_ARRAY vB lB cB fb
      DATA_TYPE_JSON_OBJECT tail hv hl hc hver (by decide)]

/-- C7 witness: concrete instances of all three parts — a dict refused by
`send_json_array`, a list refused by `send_json_object`, and a frame
tagged JsonObject making `receive_json_array` fail with the
invalid-data-type error. -/
theorem c7_json_shape_enforcement_witness :
    send_json_array (fun b _ => b) initial_compression (.pyDict .nil) 0
        = .error .notListType
  ∧ send_json_object (fun b _ => b) initial_compression (.pyList .nil) 0
        = .error .notDictType
  ∧ receive_json_array (fun b => .ok b)
        (msgBegin ++ [0, 0, 0, 2] ++ [0, 0, 0, 5] ++ [0, 0, 0, 9] ++ [0]
          ++ [DATA_TYPE_JSON_OBJECT] ++ [])
      = (.error .protoInvalidDataType, []) :=
  ⟨c7_json_shape_enforcement.1 _ _ _ _, c7_json_shape_enforcement.2.1 _ _ _ _,
    c7_json_shape_enforcement.2.2 (fun b => .ok b) [0, 0, 0, 2] [0, 0, 0, 5]
      [0, 0, 0, 9] 0 [] rfl rfl rfl (by decide)⟩

/-- C2: loopback round trip. For every byte sequence `b` and message class
`c`, if `send_binary_data` succeeds and produces the wire bytes `wire`
(which bounds `c < 2^32` and the transmitted body length implicitly — the
source's `int.to_bytes` would raise otherwise), and the compression codec
is inverse on `b` at the configured level (the documented zlib contract,
only needed when the instance's compression is enabled), then
`receive_binary_data` over a stream carrying exactly `wire` yields
`(b, c)` and consumes the whole stream. The settings `st` are arbitrary,
so the statement covers both compression enabled (any stored level) and
disabled. -/
theorem c2_round_trip (compress : List Nat → Int → List Nat)
    (decompress : List Nat → Except Err (List Nat)) (st : CompressionSettings)
    (b : List Nat) (c : Nat) (wire : List Nat)
    (hsend : send_binary_data compress st b c DATA_TYPE_BINARY = .ok wire)
    (hcodec : st.compress_messages = true →
      decompress (compress b st.compression_level) = .ok b) :
    receive_binary_data decompress DATA_TYPE_BINARY wire = (.ok (b, c), []) := by
  unfold send_binary_data at hsend
  cases hst : st.compress_messages with
  | false =>
    simp only [hst, if_false, Bool.false_eq_true] at hsend
    obtain ⟨h1, h2, _, hw⟩ := assemble_frame_inv _ _ _ _ _ hsend
    subst hw
    simpa using frame_parse decompress b b c DATA_TYPE_BINARY 0 h1 h2 (by simp)
  | true =>
    simp only [hst, if_true] at hsend
    obtain ⟨h1, h2, _, hw⟩ := assemble_frame_inv _ _ _ _ _ hsend
    subst hw
    simpa using frame_parse decompress (compress b st.compression_level) b c
      DATA_TYPE_BINARY 1 h1 h2 (by simpa using hcodec hst)

/-- C2 witness: with a concrete invertible codec (prepend one byte /
drop one byte) and compression enabled at the default settings, sending
`[5, 6]` with class 3 produces a concrete compressed frame whose flag
byte is 1, and receiving that frame returns `([5, 6], 3)` with the whole
stream consumed. -/
theorem c2_round_trip_witness :
    send_binary_data (fun b _ => 0 :: b) initial_compression [5, 6] 3
        DATA_TYPE_BINARY
      = .ok (msgBegin ++ [0, 0, 0, 2] ++ [0, 0, 0, 3] ++ [0, 0, 0, 3] ++ [1]
          ++ [1] ++ [0, 5, 6] ++ msgEnd)
  ∧ receive_binary_data (fun l => .ok (l.drop 1)) DATA_TYPE_BINARY
        (msgBegin ++ [0, 0, 0, 2] ++ [0, 0, 0, 3] ++ [0, 0, 0, 3] ++ [1]
          ++ [1] ++ [0, 5, 6] ++ msgEnd)
      = (.ok ([5, 6], 3), []) :=
  ⟨rfl, c2_round_trip (fun b _ => 0 :: b) (fun l => .ok (l.drop 1))
    initial_compression [5, 6] 3 _ rfl (fun _ => rfl)⟩

/-- Modelled from the spec: the CompressionCodec (`zlib` in the source,
external to the repository) on one concrete input. The 8-byte sequence
below is the zlib stream produced by compressing the empty payload at the
default level, and decompressing it yields the empty payload again; every
other input is rejected as invalid compressed data, as §4.2 specifies. -/
def zlibEmptyStream : List Nat := [120, 156, 3, 0, 0, 0, 0, 1]

/-- Decompression behavior of the codec of `zlibEmptyStream`. -/
def zlibEmptyDecompress : List Nat → Except Err (List Nat) := fun b =>
  if b = zlibEmptyStream then .ok [] else .error .decompressFailed

/-- C3 counterexample: the claim says a frame whose compressedFlag byte is
neither 0 nor 1 is rejected as invalid. This concrete frame carries flag
byte 2 — yet `receive_binary_data` accepts it completely, because the
source reads the flag with `bool.from_bytes`, which maps every nonzero
byte to True: the body (a valid zlib stream) is decompressed and the
message is returned with its class, no error of any kind. -/
theorem c3_counterexample :
    receive_binary_data zlibEmptyDecompress DATA_TYPE_BINARY
        (msgBegin ++ [0, 0, 0, 2] ++ [0, 0, 0, 8] ++ [0, 0, 0, 7] ++ [2] ++ [1]
          ++ zlibEmptyStream ++ msgEnd)
      = (.ok ([], 7), []) := rfl

/-- C3 (amended): the receiver does not validate the compressedFlag byte
against {0, 1}; it interprets any nonzero flag byte as "compressed" (and
0 as "uncompressed"). In particular a frame with any flag byte
`fb ≠ 0` — including every value outside {0, 1} — whose body decompresses
successfully, passes all structural checks and is fully accepted rather
than rejected. -/
theorem c3_flag_not_validated (decompress : List Nat → Except Err (List Nat))
    (body m : List Nat) (cls dt fb : Nat) (hfb : fb ≠ 0)
    (hlen : body.length < 256 ^ 4) (hcls : cls < 256 ^ 4)
    (hdec : decompress body = .ok m) :
    receive_binary_data decompress dt
        (msgBegin ++ [0, 0, 0, 2] ++ toBytesBEAux 4 body.length
          ++ toBytesBEAux 4 cls ++ [fb] ++ [dt] ++ body ++ msgEnd)
      = (.ok (m, cls), []) :=
  frame_parse decompress body m cls dt fb hlen hcls
    (by rw [if_neg hfb]; exact hdec)

/-- C3 amended witness: flag byte 3 (outside {0, 1}) with the concrete
zlib body, accepted with class 9. -/
theorem c3_flag_not_validated_witness :
    receive_binary_data zlibEmptyDecompress DATA_TYPE_BINARY
        (msgBegin ++ [0, 0, 0, 2] ++ toBytesBEAux 4 zlibEmptyStream.length
          ++ toBytesBEAux 4 9 ++ [3] ++ [DATA_TYPE_BINARY]
          ++ zlibEmptyStream ++ msgEnd)
      = (.ok ([], 9), []) :=
  c3_flag_not_validated zlibEmptyDecompress zlibEmptyStream [] 9
    DATA_TYPE_BINARY 3 (by decide) (by decide) (by decide) rfl

/-- C6: the concrete scenario. Sending the mapping with the single entry
"x" mapped to 1 as a JSON object with message class 42 and compression
disabled (via `set_message_compression enabled=False` on a fresh
instance) produces exactly the wire bytes magic + version 2 + bodyLength
8 + class 42 + flag 0x00 + type 0x04 + the 8 ASCII bytes of the
serialization of the mapping (open brace, quote, x, quote, colon, space,
1, close brace) + footer magic; and `receive_json_object` over exactly
those bytes returns that mapping with class 42, consuming the whole
stream. The compress/decompress parameters are irrelevant on this path
(compression is off; flag byte is 0) and are instantiated arbitrarily. -/
theorem c6_concrete_scenario :
    send_json_object (fun b _ => b)
        (set_message_compression initial_compression false none)
        (.pyDict (.cons [120] (.pyInt 1) .nil)) 42
      = .ok (msgBegin ++ [0, 0, 0, 2] ++ [0, 0, 0, 8] ++ [0, 0, 0, 42] ++ [0]
          ++ [4] ++ [123, 34, 120, 34, 58, 32, 49, 125] ++ msgEnd)
  ∧ receive_json_object (fun _ => .error .decompressFailed)
        (msgBegin ++ [0, 0, 0, 2] ++ [0, 0, 0, 8] ++ [0, 0, 0, 42] ++ [0]
          ++ [4] ++ [123, 34, 120, 34, 58, 32, 49, 125] ++ msgEnd)
      = (.ok (.pyDict (.cons [120] (.pyInt 1) .nil), 42), []) :=
  ⟨rfl, rfl⟩

/-- C8 counterexample: the claim says the frame-encoding step always
succeeds for every byte sequence. For a body of 2^32 bytes the 4-byte
bodyLength field cannot hold the count: the source's
`binary_data_length.to_bytes(4, ...)` raises OverflowError (uncaught),
so encoding fails instead of succeeding. -/
theorem c8_counterexample :
    assemble_frame (List.replicate (256 ^ 4) 0) 0 false DATA_TYPE_BINARY
      = .error .overflow := by
  have e : intToBytes 4 (List.replicate (256 ^ 4) (0 : Nat)).length
      = .error .overflow := by
    rw [List.length_replicate, intToBytes, if_neg (by omega)]
  rw [assemble_frame, intToBytes_version, e]

/-- C8 (amended): for every body of fewer than 2^32 bytes (including the
empty one), every uint32 message class, every flag value and every 1-byte
dataType tag, frame encoding succeeds without inspecting the body's
contents, producing big-endian version, length and class fields, the flag
and tag bytes, the body verbatim, and the footer — 25 header bytes plus
the body plus 9 footer bytes in total. (Bodies of 2^32 bytes or more
overflow the 4-byte length field and encoding raises instead, per the
counterexample.) -/
theorem c8_encode_total (body : List Nat) (cls : Nat) (fl : Bool) (dt : Nat)
    (h1 : body.length < 256 ^ 4) (h2 : cls < 256 ^ 4) (h3 : dt < 256) :
    assemble_frame body cls fl dt
      = .ok (msgBegin ++ [0, 0, 0, 2] ++ toBytesBEAux 4 body.length
          ++ toBytesBEAux 4 cls ++ [if fl then 1 else 0] ++ [dt] ++ body ++ msgEnd)
  ∧ (msgBegin ++ [0, 0, 0, 2] ++ toBytesBEAux 4 body.length
      ++ toBytesBEAux 4 cls ++ [if fl then 1 else 0] ++ [dt] ++ body
      ++ msgEnd).length = 25 + body.length + 9 := by
  refine ⟨assemble_frame_ok body cls fl dt h1 h2 h3, ?_⟩
  simp [List.length_append, toBytesBEAux_length, msgBegin, msgEnd]
  omega

/-- C8 witness: a concrete three-byte body with class 5, compression flag
set and the String tag encodes successfully into a 37-byte frame. -/
theorem c8_encode_total_witness :
    assemble_frame [10, 20, 30] 5 true DATA_TYPE_STRING
      = .ok (msgBegin ++ [0, 0, 0, 2] ++ toBytesBEAux 4 [10, 20, 30].length
          ++ toBytesBEAux 4 5 ++ [if true then 1 else 0] ++ [DATA_TYPE_STRING]
          ++ [10, 20, 30] ++ msgEnd) :=
  (c8_encode_total [10, 20, 30] 5 true DATA_TYPE_STRING (by decide) (by decide)
    (by decide)).1

/-- C9: `set_message_compression` with the level argument omitted (None)
stores the new enabled flag and leaves the previously stored compression
level untouched; and a `set_message_compression` call affects only sends
performed after it — appending such a call at the end of any sequence of
operations leaves the wire bytes of every send already performed
completely unchanged, since each send reads the settings at its own call
time. -/
theorem c9_set_compression_future_only (st : CompressionSettings) (b : Bool)
    (compress : List Nat → Int → List Nat) (cmds : List Command)
    (lvl : Option Int) :
    (set_message_compression st b none).compression_level = st.compression_level
  ∧ (set_message_compression st b none).compress_messages = b
  ∧ (run_session compress st (cmds ++ [.setComp b lvl])).2
      = (run_session compress st cmds).2 := by
  refine ⟨rfl, rfl, ?_⟩
  induction cmds generalizing st with
  | nil => rfl
  | cons cmd rest ih =>
    cases cmd with
    | sendBin data cls => simp [run_session, ih]
    | setComp b2 lvl2 => simp [run_session, ih]

/-- C10: a freshly constructed instance has compression enabled with the
default level -1, and therefore every message it sends (before any
`set_message_compression` call) is built from the compressed body
`compress b (-1)` and carries flag byte 1 at offset 23 of its frame. -/
theorem c10_fresh_instance_compresses (compress : List Nat → Int → List Nat)
    (b : List Nat) (c dt : Nat)
    (hlen : (compress b (-1)).length < 256 ^ 4) (hc : c < 256 ^ 4)
    (hdt : dt < 256) :
    initial_compression.compress_messages = true
  ∧ initial_compression.compression_level = -1
  ∧ send_binary_data compress initial_compression b c dt
      = .ok (msgBegin ++ [0, 0, 0, 2]
          ++ toBytesBEAux 4 (compress b (-1)).length
          ++ toBytesBEAux 4 c ++ [1] ++ [dt] ++ compress b (-1) ++ msgEnd) := by
  refine ⟨rfl, rfl, ?_⟩
  show assemble_frame (compress b (-1)) c true dt = _
  simpa using assemble_frame_ok (compress b (-1)) c true dt hlen hc hdt

/-- C10 witness: the fresh instance really compresses — with a codec that
prepends a byte, sending `[7]` with class 5 yields the frame of the
2-byte compressed body with flag byte 1. -/
theorem c10_fresh_instance_compresses_witness :
    send_binary_data (fun b _ => 0 :: b) initial_compression [7] 5
        DATA_TYPE_BINARY
      = .ok (msgBegin ++ [0, 0, 0, 2] ++ toBytesBEAux 4 2 ++ toBytesBEAux 4 5
          ++ [1] ++ [DATA_TYPE_BINARY] ++ [0, 7] ++ msgEnd) :=
  (c10_fresh_instance_compresses (fun b _ => 0 :: b) [7] 5 DATA_TYPE_BINARY
    (by decide) (by decide) (by decide)).2.2

end MsgESS
